import Mathlib

/-!
Shallow embedding of the GPU-aware custom scheduler
(`examples/08-custom-scheduler-binary/02-gpu-aware-scheduler.py`).

Conventions of the embedding:
* Python `int` is modelled as `Int`; GPU memory figures (MB) are `Int`.
* Python `float` scores are modelled exactly over `ℚ` (real-valued
  arithmetic; the code only adds, multiplies and divides small numbers,
  and every property of interest is an order/selection property).
* Python dicts that the code iterates in insertion order are modelled as
  association lists (`List (key × value)`), preserving iteration order.
* Fallible Python operations (`int(...)` raising `ValueError`, indexing
  raising `IndexError`, a failing network call) are modelled with
  `Option`/`Except`; `try/except` blocks are modelled by matching on the
  `Except` value exactly where the source catches.
* Negative slice counts (`xs[:n]` with `n < 0`) never occur on any call
  path of the source (multi-GPU selection is only entered with
  `tp_size > 1`); slices are modelled with `Int.toNat`, which is faithful
  for every non-negative count.
-/

namespace GPUSched

/-- Model of Python `str.__contains__` (the `in` operator) on character
lists: `startsWithChars n h` is true when `n` is an initial segment of `h`. -/
def startsWithChars : List Char → List Char → Bool
  | [], _ => true
  | _ :: _, [] => false
  | a :: as, b :: bs => a == b && startsWithChars as bs

/-- Model of Python `needle in haystack` on character lists. -/
def hasSubChars (needle : List Char) : List Char → Bool
  | [] => startsWithChars needle []
  | b :: bs => startsWithChars needle (b :: bs) || hasSubChars needle bs

/-- Model of Python `needle in haystack` for strings. -/
def strContains (haystack needle : String) : Bool :=
  hasSubChars needle.toList haystack.toList

/-- Numeric value of a decimal digit character, `none` otherwise. -/
def digitVal (c : Char) : Option Nat :=
  if c.isDigit then some (c.toNat - 48) else none

/-- Accumulate decimal digits; `none` as soon as a non-digit appears. -/
def digitsAux : List Char → Nat → Option Nat
  | [], acc => some acc
  | c :: t, acc =>
    match digitVal c with
    | none => none
    | some d => digitsAux t (acc * 10 + d)

/-- Parse a non-empty all-digit character list as a natural number. -/
def digitsToNat : List Char → Option Nat
  | [] => none
  | c :: t => digitsAux (c :: t) 0

/-- Model of Python `int(s)`: optional sign followed by decimal digits;
`none` models the `ValueError` that `int` raises on any other input. -/
def parsePyInt (s : String) : Option Int :=
  match s.toList with
  | '-' :: rest => (digitsToNat rest).map (fun n => -(n : Int))
  | '+' :: rest => (digitsToNat rest).map (fun n => (n : Int))
  | l => (digitsToNat l).map (fun n => (n : Int))

/-- Model of Python `d.get(k, default)` on an association list. -/
def dictGet (m : List (String × String)) (k d : String) : String :=
  match m.find? (fun p => p.1 == k) with
  | some p => p.2
  | none => d

/-- Model of Python `d.get(k)` (no default) on an association list. -/
def dictGetOpt (m : List (String × String)) (k : String) : Option String :=
  (m.find? (fun p => p.1 == k)).map (fun p => p.2)

/-- `GPUInfo` dataclass: GPU information for a single GPU. -/
structure GPUInfo where
  node : String
  gpu_index : Int
  memory_total : Int
  memory_used : Int
  memory_free : Int
  utilization : ℚ
  product : String
deriving DecidableEq, Repr

/-- `NodeGPUState` dataclass: GPU state for a node. -/
structure NodeGPUState where
  node_name : String
  gpus : List GPUInfo
  total_gpus : Int
  free_gpus : Int
  nvlink_enabled : Bool
  socket_count : Int
deriving DecidableEq, Repr

/-- `SchedulingResult` dataclass: result of a scheduling decision. -/
structure SchedulingResult where
  node : String
  gpus : List Int
  score : ℚ
  reason : String
deriving DecidableEq, Repr

/-- One container of a pod spec: its resource requests (the dict
`resources.requests`, `none` modelling Python `None`), its environment
variables and its launch arguments. -/
structure Container where
  requests : Option (List (String × String))
  env : List (String × String)
  args : List String
deriving DecidableEq, Repr

/-- The parts of a pod object that the scheduler reads. -/
structure Pod where
  scheduler_name : String
  node_name : Option String
  deletion_timestamp : Bool
  containers : List Container
deriving DecidableEq, Repr

/-- The GPU state cache: a node-name-keyed mapping in insertion order. -/
abbrev Cache := List (String × NodeGPUState)

/-- `self.cache_ttl = 10` (seconds). -/
def cache_ttl : Int := 10

/-- `score_single_gpu`: score a single GPU for placement.  The `pod`
argument is accepted and ignored, as in the source. -/
def score_single_gpu (gpu : GPUInfo) (state : NodeGPUState) (_pod : Pod) : ℚ :=
  ((gpu.memory_free : ℚ) / (gpu.memory_total : ℚ)) * 50
    + (100 - gpu.utilization) * (3 / 10)
    + (if strContains gpu.product "H100" then 30 else 0)
    + (if state.nvlink_enabled then 10 else 0)

/-- Builds the `SchedulingResult` that `find_single_gpu_placement`
constructs for one candidate GPU. -/
def mkSingleResult (node_name : String) (state : NodeGPUState) (pod : Pod)
    (gpu : GPUInfo) : SchedulingResult :=
  ⟨node_name, [gpu.gpu_index], score_single_gpu gpu state pod,
    "Single GPU " ++ toString gpu.gpu_index ++ " with "
      ++ toString gpu.memory_free ++ "MB free"⟩

/-- Inner loop of `find_single_gpu_placement`: scan the GPUs of one node,
skipping GPUs with less than 1000 MB free, keeping the strictly best score
seen so far (`if score > best_score`). -/
def scanGpus (node_name : String) (state : NodeGPUState) (pod : Pod) :
    List GPUInfo → Option SchedulingResult → Option SchedulingResult
  | [], best => best
  | g :: t, best =>
    if g.memory_free < 1000 then
      scanGpus node_name state pod t best
    else
      scanGpus node_name state pod t
        (match best with
          | none => some (mkSingleResult node_name state pod g)
          | some b =>
            if score_single_gpu g state pod > b.score then
              some (mkSingleResult node_name state pod g)
            else some b)

/-- Outer loop of `find_single_gpu_placement`: iterate the cached nodes in
order, skipping nodes with `free_gpus < gpu_req`. -/
def find_single_go (gpu_req : Int) (pod : Pod) :
    Cache → Option SchedulingResult → Option SchedulingResult
  | [], best => best
  | p :: rest, best =>
    if p.2.free_gpus < gpu_req then
      find_single_go gpu_req pod rest best
    else
      find_single_go gpu_req pod rest (scanGpus p.1 p.2 pod p.2.gpus best)

/-- `find_single_gpu_placement`: find the best single-GPU placement. -/
def find_single_gpu_placement (gpu_state : Cache) (gpu_req : Int)
    (pod : Pod) : Option SchedulingResult :=
  find_single_go gpu_req pod gpu_state none

/-- The free-GPU list that `select_gpu_set` computes:
`[g for g in state.gpus if g.memory_free > 1000]`. -/
def free_gpus_of (state : NodeGPUState) : List GPUInfo :=
  state.gpus.filter (fun g => decide (g.memory_free > 1000))

/-- Stable insertion of a GPU into a list sorted by `gpu_index`
(existing elements with an equal index stay first, as Python's stable
`sorted` does). -/
def insertByIndex (g : GPUInfo) : List GPUInfo → List GPUInfo
  | [] => [g]
  | h :: t =>
    if h.gpu_index ≤ g.gpu_index then h :: insertByIndex g t
    else g :: h :: t

/-- Model of `sorted(gpus, key=lambda g: g.gpu_index)` (stable). -/
def sortByIndex : List GPUInfo → List GPUInfo
  | [] => []
  | g :: t => insertByIndex g (sortByIndex t)

/-- The contiguity check of `find_contiguous_gpus`: every adjacent pair of
the candidate window satisfies `candidate[j].gpu_index + 1 ==
candidate[j+1].gpu_index`. -/
def isContig : List GPUInfo → Bool
  | [] => true
  | [_] => true
  | a :: b :: t => (a.gpu_index + 1 == b.gpu_index) && isContig (b :: t)

/-- The window scan of `find_contiguous_gpus` over the index-sorted list:
try the window starting at each position in ascending order and return the
first contiguous one (`for i in range(len(gpus_by_index) - count + 1)`). -/
def findRunNat (k : Nat) : List GPUInfo → Option (List GPUInfo)
  | [] => if k = 0 then some [] else none
  | g :: t =>
    if k ≤ (g :: t).length then
      if isContig ((g :: t).take k) then some ((g :: t).take k)
      else findRunNat k t
    else none

/-- `find_contiguous_gpus`: find contiguous GPU indices (better for
NVLink). -/
def find_contiguous_gpus (gpus : List GPUInfo) (count : Int) :
    Option (List GPUInfo) :=
  findRunNat count.toNat (sortByIndex gpus)

/-- Sum of the individual scores of a GPU list
(`sum(self.score_single_gpu(g, state, pod) for g in selected)`). -/
def sumScores (gpus : List GPUInfo) (state : NodeGPUState) (pod : Pod) : ℚ :=
  (gpus.map (fun g => score_single_gpu g state pod)).sum

/-- `select_gpu_set`: select the best set of GPUs on a node.  Returns
`(none, 0)` when fewer than `count` GPUs are free, otherwise the selected
indices and the node score (with the 1.5 NVLink bonus exactly where the
source applies it). -/
def select_gpu_set (state : NodeGPUState) (count : Int) (pod : Pod) :
    Option (List Int) × ℚ :=
  let free_gpus := free_gpus_of state
  if (free_gpus.length : Int) < count then (none, 0)
  else if state.nvlink_enabled = false ∨ count = 1 then
    let selected := free_gpus.take count.toNat
    (some (selected.map (fun g => g.gpu_index)), sumScores selected state pod)
  else
    match find_contiguous_gpus free_gpus count with
    | some selected =>
      (some (selected.map (fun g => g.gpu_index)),
        sumScores selected state pod * (3 / 2))
    | none =>
      let selected := free_gpus.take count.toNat
      (some (selected.map (fun g => g.gpu_index)), sumScores selected state pod)

/-- The update step of `find_multi_gpu_placement`
(`if gpu_set and score > best_score: ...`): an empty selected list is
falsy in Python and never replaces the best result. -/
def multiStep (node_name : String) (gset : List Int) (score : ℚ)
    (best : Option SchedulingResult) : Option SchedulingResult :=
  if gset = [] then best
  else
    match best with
    | none =>
      some ⟨node_name, gset, score,
        toString gset.length ++ " GPUs on " ++ node_name⟩
    | some b =>
      if score > b.score then
        some ⟨node_name, gset, score,
          toString gset.length ++ " GPUs on " ++ node_name⟩
      else some b

/-- Loop of `find_multi_gpu_placement`: iterate the cached nodes in order,
skipping nodes with `free_gpus < tp_size` (note: the requested GPU count
`gpu_req` is accepted but never consulted, exactly as in the source). -/
def find_multi_go (gpu_req tp_size : Int) (pod : Pod) :
    Cache → Option SchedulingResult → Option SchedulingResult
  | [], best => best
  | p :: rest, best =>
    if p.2.free_gpus < tp_size then
      find_multi_go gpu_req tp_size pod rest best
    else
      match select_gpu_set p.2 tp_size pod with
      | (none, _) => find_multi_go gpu_req tp_size pod rest best
      | (some gset, score) =>
        find_multi_go gpu_req tp_size pod rest (multiStep p.1 gset score best)

/-- `find_multi_gpu_placement`: find the best multi-GPU placement with
topology awareness. -/
def find_multi_gpu_placement (gpu_state : Cache) (gpu_req tp_size : Int)
    (pod : Pod) : Option SchedulingResult :=
  find_multi_go gpu_req tp_size pod gpu_state none

/-- `find_best_placement`: dispatch on the tensor-parallel size. -/
def find_best_placement (gpu_state : Cache) (gpu_req tp_size : Int)
    (pod : Pod) : Option SchedulingResult :=
  if tp_size ≤ 1 then find_single_gpu_placement gpu_state gpu_req pod
  else find_multi_gpu_placement gpu_state gpu_req tp_size pod

/-- The `nvidia.com/gpu` quantity string of one container, when present
(`container.resources.requests.get("nvidia.com/gpu")`, with a `None`
requests dict treated as empty). -/
def containerGpuStr (c : Container) : Option String :=
  dictGetOpt (c.requests.getD []) "nvidia.com/gpu"

/-- `get_gpu_requirement`: read the GPU requirement from the pod spec.
No containers means 0; otherwise the first container's request string
(default `"0"`) is passed to `int(...)`, whose `ValueError` on a
non-numeric quantity is modelled as `Except.error`. -/
def get_gpu_requirement (pod : Pod) : Except String Int :=
  match pod.containers with
  | [] => .ok 0
  | c :: _ =>
    match parsePyInt (dictGet (c.requests.getD []) "nvidia.com/gpu" "0") with
    | some n => .ok n
    | none => .error "ValueError: invalid literal for int"

/-- First `TENSOR_PARALLEL_SIZE` environment value across the pod's
containers, in iteration order. -/
def findTPEnv : List Container → Option String
  | [] => none
  | c :: rest =>
    match c.env.find? (fun p => p.1 == "TENSOR_PARALLEL_SIZE") with
    | some p => some p.2
    | none => findTPEnv rest

/-- First `--tensor-parallel-size` launch argument: `int(arg.split("=")[1])`,
with a missing `=` part modelled as `IndexError` and a bad number as
`ValueError`. -/
def findTPArg : List String → Option (Except String Int)
  | [] => none
  | a :: rest =>
    if strContains a "--tensor-parallel-size" then
      some
        (match (a.splitOn "=").get? 1 with
          | none => .error "IndexError: list index out of range"
          | some s =>
            match parsePyInt s with
            | some n => .ok n
            | none => .error "ValueError: invalid literal for int")
    else findTPArg rest

/-- `get_tensor_parallel_size`: environment variable first, then launch
arguments of the first container, then default to the GPU requirement. -/
def get_tensor_parallel_size (pod : Pod) : Except String Int :=
  match findTPEnv pod.containers with
  | some v =>
    match parsePyInt v with
    | some n => .ok n
    | none => .error "ValueError: invalid literal for int"
  | none =>
    match pod.containers with
    | [] => .error "IndexError: list index out of range"
    | c :: _ =>
      match findTPArg c.args with
      | some r => r
      | none => get_gpu_requirement pod

/-- Outcome of `schedule_pod` for one pod event. -/
inductive ScheduleAction where
  | notOurs
  | alreadyAssigned
  | noGpuNeeded
  | bound (node : String) (gpus : List Int)
  | noFeasible
deriving DecidableEq, Repr

/-- `schedule_pod`: filter, extract, decide, bind — for one pod event.
The GPU-state refresh that the source performs first is modelled
separately (`update_gpu_state`); `gpu_state` here is the cache snapshot
the placement runs against.  A `.error` value models an uncaught Python
exception propagating out of `schedule_pod` (and hence out of the watch
loop). -/
def schedule_pod (scheduler_name : String) (gpu_state : Cache) (pod : Pod) :
    Except String ScheduleAction :=
  if pod.scheduler_name ≠ scheduler_name then .ok .notOurs
  else if pod.node_name.isSome = true ∨ pod.deletion_timestamp = true then
    .ok .alreadyAssigned
  else
    match get_gpu_requirement pod with
    | .error e => .error e
    | .ok gpu_req =>
      if gpu_req = 0 then .ok .noGpuNeeded
      else
        match get_tensor_parallel_size pod with
        | .error e => .error e
        | .ok tp_size =>
          match find_best_placement gpu_state gpu_req tp_size pod with
          | some result => .ok (.bound result.node result.gpus)
          | none => .ok .noFeasible

/-- The parts of a cluster node object that the refresh reads: its name,
the resource names advertised in `status.capacity`, and its labels. -/
structure KNode where
  name : String
  capacity : List String
  labels : List (String × String)
deriving DecidableEq, Repr

/-- `check_nvlink_enabled`: node label `gpu.nvlink` equals `"true"`. -/
def check_nvlink_enabled (node : KNode) : Bool :=
  dictGet node.labels "gpu.nvlink" "false" == "true"

/-- `get_socket_count`: `int(labels.get("cpu.sockets", "1"))`; `none`
models the `ValueError` raised on a non-numeric label. -/
def get_socket_count (node : KNode) : Option Int :=
  parsePyInt (dictGet node.labels "cpu.sockets" "1")

/-- External collaborators of one refresh: the orchestrator node listing
(which may fail as a whole) and the per-node DCGM metrics query (which may
fail per node). -/
structure ClusterEnv where
  nodes : Except String (List KNode)
  metrics : String → Except String (List GPUInfo)

/-- `query_node_gpu_metrics`: the source wraps the query in
`try/except` and returns an empty list on any per-node failure. -/
def query_node_gpu_metrics (env : ClusterEnv) (node_name : String) :
    List GPUInfo :=
  match env.metrics node_name with
  | .ok l => l
  | .error _ => []

/-- The `NodeGPUState` the refresh constructs for one node. -/
def mkNodeGPUState (node_name : String) (gpu_infos : List GPUInfo)
    (nvlink : Bool) (sockets : Int) : NodeGPUState :=
  ⟨node_name, gpu_infos, (gpu_infos.length : Int),
    ((gpu_infos.filter (fun g => decide (g.memory_free > 1000))).length : Int),
    nvlink, sockets⟩

/-- The node loop of `update_gpu_state`, run against the freshly cleared
mapping: skips non-GPU nodes, skips nodes whose metrics query returned
nothing, and aborts (modelling the uncaught `ValueError` of
`get_socket_count`) leaving the mapping built so far.  Also returns the
names of the nodes whose metrics were queried. -/
def refreshNodes (env : ClusterEnv) :
    List KNode → Cache → List String → Cache × List String × Option String
  | [], acc, queried => (acc, queried, none)
  | n :: rest, acc, queried =>
    if n.capacity.contains "nvidia.com/gpu" = false then
      refreshNodes env rest acc queried
    else
      let gpu_infos := query_node_gpu_metrics env n.name
      if gpu_infos = [] then refreshNodes env rest acc (queried ++ [n.name])
      else
        match get_socket_count n with
        | none => (acc, queried ++ [n.name], some "ValueError: invalid literal for int")
        | some sc =>
          refreshNodes env rest
            (acc ++ [(n.name,
              mkNodeGPUState n.name gpu_infos (check_nvlink_enabled n) sc)])
            (queried ++ [n.name])

/-- The cache owned by the scheduler: the node mapping plus the single
shared `last_update` timestamp. -/
structure CacheState where
  gpu_state : Cache
  last_update : Int
deriving DecidableEq, Repr

/-- Observable outcome of one `update_gpu_state` call: the cache
afterwards, whether the node listing was issued, which nodes' metrics
were queried, and the uncaught exception if one escaped. -/
structure RefreshOutcome where
  st : CacheState
  listed : Bool
  queried : List String
  error : Option String
deriving DecidableEq, Repr

/-- `update_gpu_state`: within the TTL the cache is returned untouched and
nothing is queried.  Otherwise the node listing runs (its failure leaves
the mapping untouched), the mapping is cleared (`self.gpu_state = {}`) and
rebuilt node by node; only a complete loop updates `last_update`. -/
def update_gpu_state (env : ClusterEnv) (now : Int) (s : CacheState) :
    RefreshOutcome :=
  if now - s.last_update < cache_ttl then ⟨s, false, [], none⟩
  else
    match env.nodes with
    | .error e => ⟨s, true, [], some e⟩
    | .ok nodes =>
      match refreshNodes env nodes [] [] with
      | (acc, queried, some e) => ⟨⟨acc, s.last_update⟩, true, queried, some e⟩
      | (acc, queried, none) => ⟨⟨acc, now⟩, true, queried, none⟩

/-! Specification-side helper definitions: candidate enumerations and
window vocabulary used to state the claims, plus concrete inputs used by
witnesses and counterexamples. -/

/-- The window of length `k` starting at position `i` of a list (what the
scan of `find_contiguous_gpus` examines at loop index `i`). -/
def window (l : List GPUInfo) (i k : Nat) : List GPUInfo :=
  (l.drop i).take k

/-- The window at position `i` fits inside the list and is a contiguous
run of GPU indices. -/
def contigWindow (l : List GPUInfo) (i k : Nat) : Prop :=
  i + k ≤ l.length ∧ isContig (window l i k) = true

/-- Reference fold: keep the first result attaining the strictly maximal
score ('first-seen wins' tie-breaking, as the source's
`if score > best_score`). -/
def pickBest : List SchedulingResult → Option SchedulingResult → Option SchedulingResult
  | [], best => best
  | r :: t, best =>
    pickBest t (some (match best with
      | none => r
      | some b => if r.score > b.score then r else b))

/-- The candidate results of one node in the single-GPU path: one result
per GPU with at least 1000 MB free, in stored order. -/
def nodeResults (node_name : String) (state : NodeGPUState) (pod : Pod)
    (gl : List GPUInfo) : List SchedulingResult :=
  (gl.filter (fun g => !decide (g.memory_free < 1000))).map
    (mkSingleResult node_name state pod)

/-- All candidate results of the single-GPU path, in iteration order:
nodes with `free_gpus ≥ gpu_req` in cache order, then their scoreable
GPUs in stored order. -/
def singleResults (gpu_state : Cache) (gpu_req : Int) (pod : Pod) :
    List SchedulingResult :=
  (gpu_state.filter (fun p => !decide (p.2.free_gpus < gpu_req))).flatMap
    (fun p => nodeResults p.1 p.2 pod p.2.gpus)

/-- The complete snapshot a successful refresh produces: one entry per
GPU-advertising node whose metrics query returned data and whose socket
label parses; each node's entry depends only on that node's own query. -/
def newSnapshot (env : ClusterEnv) (nodes : List KNode) : Cache :=
  nodes.filterMap (fun n =>
    if n.capacity.contains "nvidia.com/gpu" = false then none
    else
      let gpu_infos := query_node_gpu_metrics env n.name
      if gpu_infos = [] then none
      else
        (get_socket_count n).map (fun sc =>
          (n.name, mkNodeGPUState n.name gpu_infos (check_nvlink_enabled n) sc)))

/-- The nodes whose metrics a full refresh pass queries, in order. -/
def queriedNames (nodes : List KNode) : List String :=
  (nodes.filter (fun n => n.capacity.contains "nvidia.com/gpu")).map
    (fun n => n.name)

/-- A pod value used where the scheduler threads the pod through scoring
(the scoring functions ignore it, as the source does). -/
def exPod : Pod := ⟨"gpu-aware-scheduler", none, false, []⟩

/-- Concrete GPU: 80896 MB free of 81920, 5% utilization. -/
def exG0 : GPUInfo := ⟨"n1", 0, 81920, 1024, 80896, 5, "H100"⟩

/-- Concrete one-GPU node without NVLink. -/
def exN1 : NodeGPUState := ⟨"n1", [exG0], 1, 1, false, 1⟩

/-- Cache with the single node `n1`. -/
def exCache1 : Cache := [("n1", exN1)]

/-- The decision the single-GPU path produces on `exCache1`. -/
def exR1 : SchedulingResult := mkSingleResult "n1" exN1 exPod exG0

/-- Concrete GPU with index 0 on node `n2`. -/
def exGm0 : GPUInfo := ⟨"n2", 0, 81920, 1024, 80896, 5, "H100"⟩

/-- Concrete GPU with index 1 on node `n2`. -/
def exGm1 : GPUInfo := ⟨"n2", 1, 81920, 2048, 79872, 10, "H100"⟩

/-- Two-GPU node without NVLink: `free_gpus = 2`. -/
def exN2 : NodeGPUState := ⟨"n2", [exGm0, exGm1], 2, 2, false, 1⟩

/-- Cache with the single node `n2` (two free GPUs). -/
def exCache2 : Cache := [("n2", exN2)]

/-- The decision the multi-GPU path produces on `exCache2` for group
size 2. -/
def exR2 : SchedulingResult :=
  ⟨"n2", [0, 1], sumScores [exGm0, exGm1] exN2 exPod, "2 GPUs on n2"⟩

/-- GPU at exactly the 1000 MB boundary cannot occur here: 5000 MB free,
90% utilized, so a *low* score. -/
def exG3a : GPUInfo := ⟨"n1", 0, 81920, 76920, 5000, 90, "H100"⟩

/-- GPU with exactly 1000 MB free (the boundary value) and 0% utilization,
so a *high* score. -/
def exG3b : GPUInfo := ⟨"n1", 1, 81920, 80920, 1000, 0, "H100"⟩

/-- Node holding `exG3a` and `exG3b`; note `free_gpus = 1` because only
`exG3a` has strictly more than 1000 MB free. -/
def exN3c : NodeGPUState := ⟨"n1", [exG3a, exG3b], 2, 1, false, 1⟩

/-- Cache for the threshold-boundary scenario. -/
def exSt3c : Cache := [("n1", exN3c)]

/-- NVLink node GPU with index 0. -/
def exH0 : GPUInfo := ⟨"nv", 0, 81920, 1024, 80896, 5, "H100"⟩

/-- NVLink node GPU with index 2. -/
def exH2 : GPUInfo := ⟨"nv", 2, 81920, 2048, 79872, 10, "H100"⟩

/-- NVLink node GPU with index 3. -/
def exH3 : GPUInfo := ⟨"nv", 3, 81920, 2048, 79872, 10, "H100"⟩

/-- NVLink-enabled node whose free GPUs have indices `[0, 2, 3]`: the
first contiguous pair is `[2, 3]`. -/
def exNvState : NodeGPUState := ⟨"nv", [exH0, exH2, exH3], 3, 3, true, 1⟩

/-- Pod whose first container carries a non-numeric GPU quantity. -/
def exBadPod : Pod :=
  ⟨"gpu-aware-scheduler", none, false,
    [⟨some [("nvidia.com/gpu", "abc")], [], []⟩]⟩

/-- Pod whose first container requests no GPUs at all. -/
def exPodZero : Pod :=
  ⟨"gpu-aware-scheduler", none, false, [⟨some [("cpu", "1")], [], []⟩]⟩

/-- Pod requesting 4 GPUs, with no explicit tensor-parallel hint (so the
group size defaults to 4). -/
def exPod9 : Pod :=
  ⟨"gpu-aware-scheduler", none, false,
    [⟨some [("nvidia.com/gpu", "4")], [], []⟩]⟩

/-- Container without a GPU request. -/
def exC10a : Container := ⟨some [("cpu", "2")], [], []⟩

/-- Container with a GPU request (to be placed second). -/
def exC10b : Container := ⟨some [("nvidia.com/gpu", "8")], [], []⟩

/-- Cluster node with a GPU, NVLink label and a numeric socket label. -/
def kn1 : KNode :=
  ⟨"n1", ["nvidia.com/gpu"], [("gpu.nvlink", "true"), ("cpu.sockets", "2")]⟩

/-- Cluster node whose `cpu.sockets` label is not numeric: building its
state raises `ValueError` inside the refresh loop. -/
def knBad : KNode := ⟨"n2", ["nvidia.com/gpu"], [("cpu.sockets", "abc")]⟩

/-- Cluster node whose metrics query fails (and is therefore skipped). -/
def knFail : KNode := ⟨"n3", ["nvidia.com/gpu"], []⟩

/-- Metrics source: answers for every node except `n3`. -/
def exMetrics (n : String) : Except String (List GPUInfo) :=
  if n == "n3" then .error "connection refused"
  else .ok [⟨n, 0, 81920, 1024, 80896, 5, "H100"⟩]

/-- Environment whose second node aborts the refresh loop halfway. -/
def envC4 : ClusterEnv := ⟨.ok [kn1, knBad], exMetrics⟩

/-- Environment where every socket label parses; `n3`'s query fails and
is skipped without affecting `n1`. -/
def envGood : ClusterEnv := ⟨.ok [kn1, knFail], exMetrics⟩

/-- A non-empty prior cache with a stale refresh stamp. -/
def exPrior : CacheState := ⟨[("old", exN1)], 0⟩

/-! Helper lemmas shared by several claims. -/

theorem parse_zero : parsePyInt "0" = some 0 := rfl

theorem dictGet_eq (m : List (String × String)) (k d : String) :
    dictGet m k d = (dictGetOpt m k).getD d := by
  unfold dictGet dictGetOpt
  cases m.find? (fun p => p.1 == k) <;> rfl

/-! Claim C6: a cache read within TTL. -/

/-- C6: if a cache read occurs within TTL of the last refresh
(`now - last_update < cache_ttl`), the cached mapping is returned
entirely unchanged, the node listing is not issued, no per-node inventory
query is issued, and `last_update` is unchanged — so a second placement
call inside the same TTL window performs no second round of queries. -/
theorem claim6_ttl_hit (env : ClusterEnv) (now : Int) (s : CacheState)
    (h : now - s.last_update < cache_ttl) :
    update_gpu_state env now s = ⟨s, false, [], none⟩ := by
  simp [update_gpu_state, h]

theorem claim6_ttl_hit_witness :
    update_gpu_state envC4 5 exPrior = ⟨exPrior, false, [], none⟩ :=
  claim6_ttl_hit envC4 5 exPrior (by decide)

/-! Claim C7: the zero-requirement short-circuit. -/

/-- C7 (amended): the requested-count-0 short-circuit is implemented in
the event loop, not in the placement engine: a pod owned by this
scheduler whose parsed GPU requirement is 0 is skipped by `schedule_pod`
before `find_best_placement` is ever consulted, so no decision is
produced and no binding issued for it. -/
theorem claim7_event_loop_zero (name : String) (cache : Cache) (pod : Pod)
    (hname : pod.scheduler_name = name) (hnode : pod.node_name = none)
    (hdel : pod.deletion_timestamp = false)
    (hreq : get_gpu_requirement pod = .ok 0) :
    schedule_pod name cache pod = .ok .noGpuNeeded := by
  simp [schedule_pod, hname, hnode, hdel, hreq]

theorem claim7_event_loop_zero_witness :
    schedule_pod "gpu-aware-scheduler" exCache1 exPodZero = .ok .noGpuNeeded :=
  claim7_event_loop_zero "gpu-aware-scheduler" exCache1 exPodZero rfl rfl rfl rfl

/-- C7 counterexample: the placement engine itself, called directly with
a requested count of 0 (and defaulted group size 0), does not
short-circuit: on a cache with one free GPU it enumerates the node,
scores the GPU and returns a placement decision. -/
theorem claim7_counterexample :
    (find_best_placement exCache1 0 0 exPod).isSome = true := rfl

/-! Claim C5: extraction of the requested accelerator count. -/

/-- C5 (amended): an absent resource request (no containers, or no
`nvidia.com/gpu` key on the first container) parses to 0 and the pod is
skipped; but a present, non-numeric quantity makes `int(...)` raise
`ValueError`, which `schedule_pod` does not catch — it propagates out of
the event handler instead of being treated as 0. -/
theorem claim5_gpu_requirement (pod : Pod) :
    (pod.containers = [] → get_gpu_requirement pod = .ok 0) ∧
    (∀ c rest, pod.containers = c :: rest → containerGpuStr c = none →
      get_gpu_requirement pod = .ok 0) ∧
    (∀ c rest q, pod.containers = c :: rest → containerGpuStr c = some q →
      parsePyInt q = none →
      get_gpu_requirement pod = .error "ValueError: invalid literal for int") ∧
    (∀ name cache e, pod.scheduler_name = name → pod.node_name = none →
      pod.deletion_timestamp = false → get_gpu_requirement pod = .error e →
      schedule_pod name cache pod = .error e) := by
  refine ⟨?_, ?_, ?_, ?_⟩
  · intro h
    simp [get_gpu_requirement, h]
  · intro c rest hc hnone
    have h2 : dictGetOpt (c.requests.getD []) "nvidia.com/gpu" = none := hnone
    simp [get_gpu_requirement, hc, dictGet_eq, h2, parse_zero]
  · intro c rest q hc hsome hparse
    have h2 : dictGetOpt (c.requests.getD []) "nvidia.com/gpu" = some q := hsome
    simp [get_gpu_requirement, hc, dictGet_eq, h2, hparse]
  · intro name cache e hname hnode hdel herr
    simp [schedule_pod, hname, hnode, hdel, herr]

theorem claim5_gpu_requirement_witness :
    get_gpu_requirement exPodZero = .ok 0 ∧
    get_gpu_requirement exBadPod = .error "ValueError: invalid literal for int" ∧
    schedule_pod "gpu-aware-scheduler" exCache1 exBadPod =
      .error "ValueError: invalid literal for int" :=
  ⟨(claim5_gpu_requirement exPodZero).2.1 ⟨some [("cpu", "1")], [], []⟩ [] rfl rfl,
   (claim5_gpu_requirement exBadPod).2.2.1
     ⟨some [("nvidia.com/gpu", "abc")], [], []⟩ [] "abc" rfl rfl rfl,
   (claim5_gpu_requirement exBadPod).2.2.2 "gpu-aware-scheduler" exCache1 _
     rfl rfl rfl rfl⟩

/-- C5 counterexample: a workload with the unparseable quantity `"abc"`
makes the extraction raise (`ValueError`), and the error propagates out
of `schedule_pod` — the claim's "never raising an exception" fails. -/
theorem claim5_counterexample :
    get_gpu_requirement exBadPod = .error "ValueError: invalid literal for int" ∧
    schedule_pod "gpu-aware-scheduler" [] exBadPod =
      .error "ValueError: invalid literal for int" :=
  ⟨rfl, rfl⟩

/-! Claim C10: only the first container is consulted. -/

/-- C10: the requested accelerator count is read exclusively from the
first container: no containers yields 0; the result is invariant under
replacing every container after the first; and a GPU request declared
only on a later container leaves the parsed requirement at 0. -/
theorem claim10_first_container (pod : Pod) :
    (pod.containers = [] → get_gpu_requirement pod = .ok 0) ∧
    (∀ c r1 r2,
      get_gpu_requirement
          ⟨pod.scheduler_name, pod.node_name, pod.deletion_timestamp, c :: r1⟩ =
        get_gpu_requirement
          ⟨pod.scheduler_name, pod.node_name, pod.deletion_timestamp, c :: r2⟩) ∧
    (∀ c c2 rest, pod.containers = c :: c2 :: rest → containerGpuStr c = none →
      get_gpu_requirement pod = .ok 0) := by
  refine ⟨?_, ?_, ?_⟩
  · intro h
    simp [get_gpu_requirement, h]
  · intro c r1 r2
    rfl
  · intro c c2 rest hc hnone
    have h2 : dictGetOpt (c.requests.getD []) "nvidia.com/gpu" = none := hnone
    simp [get_gpu_requirement, hc, dictGet_eq, h2, parse_zero]

theorem claim10_first_container_witness :
    get_gpu_requirement ⟨"s", none, false, []⟩ = .ok 0 ∧
    get_gpu_requirement ⟨"s", none, false, [exC10a, exC10b]⟩ = .ok 0 :=
  ⟨(claim10_first_container ⟨"s", none, false, []⟩).1 rfl,
   (claim10_first_container ⟨"s", none, false, [exC10a, exC10b]⟩).2.2
     exC10a exC10b [] rfl rfl⟩

/-! Claim C9: no feasible placement is a normal outcome. -/

theorem find_single_go_skip (gpu_req : Int) (pod : Pod) :
    ∀ (st : Cache) (best : Option SchedulingResult),
      (∀ p ∈ st, p.2.free_gpus < gpu_req) →
      find_single_go gpu_req pod st best = best := by
  intro st
  induction st with
  | nil => intro best _; rfl
  | cons p rest ih =>
    intro best h
    have hp : p.2.free_gpus < gpu_req := h p (by simp)
    simp only [find_single_go, if_pos hp]
    exact ih best (fun q hq => h q (by simp [hq]))

theorem find_multi_go_skip (gpu_req tp_size : Int) (pod : Pod) :
    ∀ (st : Cache) (best : Option SchedulingResult),
      (∀ p ∈ st, p.2.free_gpus < tp_size) →
      find_multi_go gpu_req tp_size pod st best = best := by
  intro st
  induction st with
  | nil => intro best _; rfl
  | cons p rest ih =>
    intro best h
    have hp : p.2.free_gpus < tp_size := h p (by simp)
    simp only [find_multi_go, if_pos hp]
    exact ih best (fun q hq => h q (by simp [hq]))

/-- C9: when every cached node's free count is below both the requested
count and the group size, the placement engine returns `none` — a normal
value, not an error — and the event loop records `noFeasible`: it issues
no binding and performs no further action for the event. -/
theorem claim9_no_feasible (cache : Cache) (gpu_req tp_size : Int)
    (pod : Pod) (name : String)
    (hreq : ∀ p ∈ cache, p.2.free_gpus < gpu_req)
    (htp : ∀ p ∈ cache, p.2.free_gpus < tp_size) :
    find_best_placement cache gpu_req tp_size pod = none ∧
    (pod.scheduler_name = name → pod.node_name = none →
      pod.deletion_timestamp = false →
      get_gpu_requirement pod = .ok gpu_req → gpu_req ≠ 0 →
      get_tensor_parallel_size pod = .ok tp_size →
      schedule_pod name cache pod = .ok .noFeasible) := by
  have hfb : find_best_placement cache gpu_req tp_size pod = none := by
    unfold find_best_placement find_single_gpu_placement find_multi_gpu_placement
    by_cases h1 : tp_size ≤ 1
    · simp [h1, find_single_go_skip gpu_req pod cache none hreq]
    · simp [h1, find_multi_go_skip gpu_req tp_size pod cache none htp]
  refine ⟨hfb, ?_⟩
  intro hname hnode hdel hgr hne htp2
  simp [schedule_pod, hname, hnode, hdel, hgr, hne, htp2, hfb]

theorem claim9_no_feasible_witness :
    find_best_placement exCache2 4 4 exPod9 = none ∧
    schedule_pod "gpu-aware-scheduler" exCache2 exPod9 = .ok .noFeasible := by
  have h := claim9_no_feasible exCache2 4 4 exPod9 "gpu-aware-scheduler"
    (by decide) (by decide)
  exact ⟨h.1, h.2 rfl rfl rfl rfl (by decide) rfl⟩

/-! Claim C4: all-or-nothing refresh. -/

theorem refreshNodes_complete (env : ClusterEnv) :
    ∀ (nodes : List KNode) (acc : Cache) (queried : List String),
      (∀ n ∈ nodes, (get_socket_count n).isSome = true) →
      refreshNodes env nodes acc queried =
        (acc ++ newSnapshot env nodes, queried ++ queriedNames nodes, none) := by
  intro nodes
  induction nodes with
  | nil =>
    intro acc queried _
    simp [refreshNodes, newSnapshot, queriedNames]
  | cons n rest ih =>
    intro acc queried h
    have hn : (get_socket_count n).isSome = true := h n (by simp)
    have hrest : ∀ m ∈ rest, (get_socket_count m).isSome = true :=
      fun m hm => h m (by simp [hm])
    by_cases hcap : n.capacity.contains "nvidia.com/gpu" = false
    · have hmem : "nvidia.com/gpu" ∉ n.capacity := by simpa using hcap
      simp only [refreshNodes, if_pos hcap]
      rw [ih acc queried hrest]
      simp [newSnapshot, queriedNames, List.filter_cons, hmem]
    · have hcap2 : n.capacity.contains "nvidia.com/gpu" = true := by
        cases hcb : n.capacity.contains "nvidia.com/gpu"
        · exact absurd hcb hcap
        · rfl
      have hmem : "nvidia.com/gpu" ∈ n.capacity := by simpa using hcap2
      by_cases hq : query_node_gpu_metrics env n.name = []
      · simp only [refreshNodes, if_neg hcap, if_pos hq]
        rw [ih acc (queried ++ [n.name]) hrest]
        simp [newSnapshot, queriedNames, List.filter_cons, hmem, hq]
      · obtain ⟨sc, hsc⟩ := Option.isSome_iff_exists.mp hn
        simp only [refreshNodes, if_neg hcap, if_neg hq, hsc]
        rw [ih (acc ++ [(n.name,
            mkNodeGPUState n.name (query_node_gpu_metrics env n.name)
              (check_nvlink_enabled n) sc)]) (queried ++ [n.name]) hrest]
        simp [newSnapshot, queriedNames, List.filter_cons, hmem, hq, hsc]

/-- C4 (amended): provided every listed node's socket label parses as an
integer, a refresh is all-or-nothing: if the node listing fails the prior
mapping (and `last_update`) is left entirely unchanged; otherwise the cache
becomes exactly the complete new snapshot of all successfully queried GPU
nodes (one entry per node-with-data, each depending only on that node's own
query, so one node's failed query skips only that node). -/
theorem claim4_refresh_all_or_nothing (env : ClusterEnv) (now : Int)
    (s : CacheState) :
    (∀ e, env.nodes = .error e → ¬ (now - s.last_update < cache_ttl) →
      update_gpu_state env now s = ⟨s, true, [], some e⟩) ∧
    (∀ nodes, env.nodes = .ok nodes → ¬ (now - s.last_update < cache_ttl) →
      (∀ n ∈ nodes, (get_socket_count n).isSome = true) →
      update_gpu_state env now s =
        ⟨⟨newSnapshot env nodes, now⟩, true, queriedNames nodes, none⟩) := by
  constructor
  · intro e he hts
    simp [update_gpu_state, hts, he]
  · intro nodes hok hts hsock
    simp [update_gpu_state, hts, hok, refreshNodes_complete env nodes [] [] hsock]

theorem claim4_refresh_witness :
    update_gpu_state envGood 100 exPrior =
      ⟨⟨newSnapshot envGood [kn1, knFail], 100⟩, true,
        queriedNames [kn1, knFail], none⟩ ∧
    newSnapshot envGood [kn1, knFail] =
      [("n1", mkNodeGPUState "n1" [⟨"n1", 0, 81920, 1024, 80896, 5, "H100"⟩]
        true 2)] :=
  ⟨(claim4_refresh_all_or_nothing envGood 100 exPrior).2 [kn1, knFail] rfl
    (by decide) (by decide), rfl⟩

/-- C4 counterexample: with a node whose `cpu.sockets` label is not
numeric, the refresh aborts halfway: the observable cache afterwards is
`[("n1", ...)]` — neither the prior snapshot `[("old", ...)]` nor the
complete new snapshot for the successfully queried node set
`["n1", "n2"]` (node `n2`'s metrics query succeeded, yet it is absent). -/
theorem claim4_counterexample :
    (update_gpu_state envC4 100 exPrior).st.gpu_state =
      [("n1", mkNodeGPUState "n1" [⟨"n1", 0, 81920, 1024, 80896, 5, "H100"⟩]
        true 2)] ∧
    exPrior.gpu_state = [("old", exN1)] ∧
    (update_gpu_state envC4 100 exPrior).st.gpu_state ≠ exPrior.gpu_state ∧
    (update_gpu_state envC4 100 exPrior).queried = ["n1", "n2"] ∧
    (update_gpu_state envC4 100 exPrior).error =
      some "ValueError: invalid literal for int" ∧
    (update_gpu_state envC4 100 exPrior).st.last_update = exPrior.last_update :=
  ⟨rfl, rfl, by decide, rfl, rfl, rfl⟩

/-! Claim C1: eligibility of the selected node. -/

theorem scanGpus_cases (node_name : String) (state : NodeGPUState) (pod : Pod) :
    ∀ (gl : List GPUInfo) (best : Option SchedulingResult) (r : SchedulingResult),
      scanGpus node_name state pod gl best = some r →
      best = some r ∨ r.node = node_name := by
  intro gl
  induction gl with
  | nil => intro best r h; left; exact h
  | cons g t ih =>
    intro best r h
    by_cases hm : g.memory_free < 1000
    · simp only [scanGpus, if_pos hm] at h
      exact ih best r h
    · simp only [scanGpus, if_neg hm] at h
      rcases ih _ r h with h1 | h1
      · cases best with
        | none =>
          injection h1 with h1
          right
          rw [← h1]
          rfl
        | some b =>
          have h2 : (if score_single_gpu g state pod > b.score then
              some (mkSingleResult node_name state pod g) else some b) = some r := h1
          by_cases hs : score_single_gpu g state pod > b.score
          · rw [if_pos hs] at h2
            injection h2 with h2
            right
            rw [← h2]
            rfl
          · rw [if_neg hs] at h2
            left
            exact h2
      · right
        exact h1

theorem find_single_go_mem (gpu_req : Int) (pod : Pod) :
    ∀ (st : Cache) (best : Option SchedulingResult) (r : SchedulingResult),
      find_single_go gpu_req pod st best = some r →
      best = some r ∨
        ∃ p, p ∈ st ∧ r.node = p.1 ∧ gpu_req ≤ p.2.free_gpus := by
  intro st
  induction st with
  | nil => intro best r h; left; exact h
  | cons p rest ih =>
    intro best r h
    by_cases hf : p.2.free_gpus < gpu_req
    · simp only [find_single_go, if_pos hf] at h
      rcases ih best r h with h1 | ⟨q, hq, hn, hl⟩
      · left; exact h1
      · right; exact ⟨q, by simp [hq], hn, hl⟩
    · simp only [find_single_go, if_neg hf] at h
      rcases ih _ r h with h1 | ⟨q, hq, hn, hl⟩
      · rcases scanGpus_cases p.1 p.2 pod p.2.gpus best r h1 with h2 | h2
        · left; exact h2
        · right; exact ⟨p, by simp, h2, not_lt.mp hf⟩
      · right; exact ⟨q, by simp [hq], hn, hl⟩

theorem multiStep_cases (node_name : String) (gset : List Int) (sc : ℚ)
    (best : Option SchedulingResult) (r : SchedulingResult)
    (h : multiStep node_name gset sc best = some r) :
    best = some r ∨ r.node = node_name := by
  unfold multiStep at h
  by_cases hg : gset = []
  · rw [if_pos hg] at h
    left
    exact h
  · rw [if_neg hg] at h
    cases best with
    | none =>
      injection h with h
      right
      rw [← h]
    | some b =>
      have h2 : (if sc > b.score then
          some (⟨node_name, gset, sc,
            toString gset.length ++ " GPUs on " ++ node_name⟩ : SchedulingResult)
          else some b) = some r := h
      by_cases hs : sc > b.score
      · rw [if_pos hs] at h2
        injection h2 with h2
        right
        rw [← h2]
      · rw [if_neg hs] at h2
        left
        exact h2

theorem find_multi_go_mem (gpu_req tp_size : Int) (pod : Pod) :
    ∀ (st : Cache) (best : Option SchedulingResult) (r : SchedulingResult),
      find_multi_go gpu_req tp_size pod st best = some r →
      best = some r ∨
        ∃ p, p ∈ st ∧ r.node = p.1 ∧ tp_size ≤ p.2.free_gpus := by
  intro st
  induction st with
  | nil => intro best r h; left; exact h
  | cons p rest ih =>
    intro best r h
    by_cases hf : p.2.free_gpus < tp_size
    · simp only [find_multi_go, if_pos hf] at h
      rcases ih best r h with h1 | ⟨q, hq, hn, hl⟩
      · left; exact h1
      · right; exact ⟨q, by simp [hq], hn, hl⟩
    · cases hsel : select_gpu_set p.2 tp_size pod with
      | mk o sc =>
        cases o with
        | none =>
          simp only [find_multi_go, if_neg hf, hsel] at h
          rcases ih best r h with h1 | ⟨q, hq, hn, hl⟩
          · left; exact h1
          · right; exact ⟨q, by simp [hq], hn, hl⟩
        | some gset =>
          simp only [find_multi_go, if_neg hf, hsel] at h
          rcases ih _ r h with h1 | ⟨q, hq, hn, hl⟩
          · rcases multiStep_cases p.1 gset sc best r h1 with h2 | h2
            · left; exact h2
            · right; exact ⟨p, by simp, h2, not_lt.mp hf⟩
          · right; exact ⟨q, by simp [hq], hn, hl⟩

/-- C1 (amended): the single-accelerator path never returns a node whose
`free_gpus` is below the requested count, and the multi-accelerator path
never returns a node whose `free_gpus` is below the group size — but the
multi path checks only the group size, never the requested count (see the
counterexample for group size < requested count). -/
theorem claim1_eligibility (st : Cache) (gpu_req tp_size : Int) (pod : Pod) :
    (∀ r, find_single_gpu_placement st gpu_req pod = some r →
      ∃ s, (r.node, s) ∈ st ∧ gpu_req ≤ s.free_gpus) ∧
    (∀ r, find_multi_gpu_placement st gpu_req tp_size pod = some r →
      ∃ s, (r.node, s) ∈ st ∧ tp_size ≤ s.free_gpus) := by
  constructor
  · intro r h
    rcases find_single_go_mem gpu_req pod st none r h with h1 | ⟨p, hp, hn, hl⟩
    · exact absurd h1 (by simp)
    · refine ⟨p.2, ?_, hl⟩
      rw [hn]
      simpa using hp
  · intro r h
    rcases find_multi_go_mem gpu_req tp_size pod st none r h with h1 | ⟨p, hp, hn, hl⟩
    · exact absurd h1 (by simp)
    · refine ⟨p.2, ?_, hl⟩
      rw [hn]
      simpa using hp

theorem claim1_eligibility_witness :
    (∃ s, (exR1.node, s) ∈ exCache1 ∧ (1 : Int) ≤ s.free_gpus) ∧
    (∃ s, (exR2.node, s) ∈ exCache2 ∧ (2 : Int) ≤ s.free_gpus) :=
  ⟨(claim1_eligibility exCache1 1 0 exPod).1 exR1 rfl,
   (claim1_eligibility exCache2 2 2 exPod).2 exR2 rfl⟩

/-- C1 counterexample: requesting 4 GPUs with co-placement group size 2,
the multi-GPU path selects node `n2` although its free count is 2 < 4 —
the requested count is never checked on the multi path, so the claim as
stated ("free_count < requested count is never the selected node, ...
including when the group size is smaller than the requested count")
fails. -/
theorem claim1_counterexample :
    find_multi_gpu_placement exCache2 4 2 exPod = some exR2 ∧
    exR2.node = "n2" ∧ exN2.free_gpus = 2 ∧ ((2 : Int) < 4) :=
  ⟨rfl, rfl, rfl, by decide⟩

/-! Claim C3: the single-GPU path is an argmax with first-seen ties.
The bridge goes through `pickBest`, a fold over the flattened candidate
list `singleResults`. -/

theorem pickBest_cons (r : SchedulingResult) (t : List SchedulingResult)
    (best : Option SchedulingResult) :
    pickBest (r :: t) best =
      pickBest t (some (match best with
        | none => r
        | some b => if r.score > b.score then r else b)) := rfl

theorem pickBest_append :
    ∀ (l1 l2 : List SchedulingResult) (best : Option SchedulingResult),
      pickBest (l1 ++ l2) best = pickBest l2 (pickBest l1 best) := by
  intro l1
  induction l1 with
  | nil => intro l2 best; rfl
  | cons r t ih =>
    intro l2 best
    rw [List.cons_append, pickBest_cons, pickBest_cons]
    exact ih l2 _

theorem nodeResults_cons_skip (node_name : String) (state : NodeGPUState)
    (pod : Pod) (g : GPUInfo) (t : List GPUInfo)
    (hm : g.memory_free < 1000) :
    nodeResults node_name state pod (g :: t) = nodeResults node_name state pod t := by
  simp [nodeResults, List.filter_cons, hm]

theorem nodeResults_cons_keep (node_name : String) (state : NodeGPUState)
    (pod : Pod) (g : GPUInfo) (t : List GPUInfo)
    (hm : ¬ g.memory_free < 1000) :
    nodeResults node_name state pod (g :: t) =
      mkSingleResult node_name state pod g :: nodeResults node_name state pod t := by
  simp [nodeResults, List.filter_cons, hm]

theorem scanGpus_eq (node_name : String) (state : NodeGPUState) (pod : Pod) :
    ∀ (gl : List GPUInfo) (best : Option SchedulingResult),
      scanGpus node_name state pod gl best =
        pickBest (nodeResults node_name state pod gl) best := by
  intro gl
  induction gl with
  | nil => intro best; rfl
  | cons g t ih =>
    intro best
    by_cases hm : g.memory_free < 1000
    · rw [nodeResults_cons_skip node_name state pod g t hm]
      simp only [scanGpus, if_pos hm]
      exact ih best
    · rw [nodeResults_cons_keep node_name state pod g t hm, pickBest_cons]
      simp only [scanGpus, if_neg hm]
      cases best with
      | none => exact ih _
      | some b =>
        show scanGpus node_name state pod t
            (if score_single_gpu g state pod > b.score
              then some (mkSingleResult node_name state pod g) else some b) =
          pickBest (nodeResults node_name state pod t)
            (some (if score_single_gpu g state pod > b.score
              then mkSingleResult node_name state pod g else b))
        by_cases hs : score_single_gpu g state pod > b.score
        · rw [if_pos hs, if_pos hs]
          exact ih _
        · rw [if_neg hs, if_neg hs]
          exact ih _

theorem singleResults_cons_skip (p : String × NodeGPUState) (rest : Cache)
    (gpu_req : Int) (pod : Pod) (hf : p.2.free_gpus < gpu_req) :
    singleResults (p :: rest) gpu_req pod = singleResults rest gpu_req pod := by
  simp [singleResults, List.filter_cons, hf]

theorem singleResults_cons_keep (p : String × NodeGPUState) (rest : Cache)
    (gpu_req : Int) (pod : Pod) (hf : ¬ p.2.free_gpus < gpu_req) :
    singleResults (p :: rest) gpu_req pod =
      nodeResults p.1 p.2 pod p.2.gpus ++ singleResults rest gpu_req pod := by
  simp [singleResults, List.filter_cons, hf]

theorem find_single_go_eq (gpu_req : Int) (pod : Pod) :
    ∀ (st : Cache) (best : Option SchedulingResult),
      find_single_go gpu_req pod st best =
        pickBest (singleResults st gpu_req pod) best := by
  intro st
  induction st with
  | nil => intro best; rfl
  | cons p rest ih =>
    intro best
    by_cases hf : p.2.free_gpus < gpu_req
    · rw [singleResults_cons_skip p rest gpu_req pod hf]
      simp only [find_single_go, if_pos hf]
      exact ih best
    · rw [singleResults_cons_keep p rest gpu_req pod hf, pickBest_append]
      simp only [find_single_go, if_neg hf]
      rw [ih, scanGpus_eq p.1 p.2 pod p.2.gpus best]

theorem pickBest_acc_spec :
    ∀ (l : List SchedulingResult) (b : SchedulingResult),
      (pickBest l (some b) = some b ∧ ∀ x ∈ l, x.score ≤ b.score) ∨
      (∃ k, ∃ hk : k < l.length,
        pickBest l (some b) = some (l.get ⟨k, hk⟩) ∧
        b.score < (l.get ⟨k, hk⟩).score ∧
        (∀ x ∈ l, x.score ≤ (l.get ⟨k, hk⟩).score) ∧
        (∀ x ∈ l.take k, x.score < (l.get ⟨k, hk⟩).score)) := by
  intro l
  induction l with
  | nil =>
    intro b
    left
    exact ⟨rfl, by simp⟩
  | cons r t ih =>
    intro b
    have hstep0 : pickBest (r :: t) (some b) =
        pickBest t (some (if r.score > b.score then r else b)) := rfl
    by_cases hrb : r.score > b.score
    · have hstep : pickBest (r :: t) (some b) = pickBest t (some r) := by
        rw [hstep0, if_pos hrb]
      rcases ih r with ⟨he, hall⟩ | ⟨k, hk, he, hlt, hall, hfirst⟩
      · right
        refine ⟨0, by simp, ?_, hrb, ?_, ?_⟩
        · rw [hstep]
          exact he
        · intro x hx
          rcases List.mem_cons.mp hx with rfl | hx
          · exact le_refl _
          · exact hall x hx
        · intro x hx
          simp at hx
      · right
        refine ⟨k + 1, Nat.succ_lt_succ hk, ?_, lt_trans hrb hlt, ?_, ?_⟩
        · rw [hstep]
          exact he
        · intro x hx
          rcases List.mem_cons.mp hx with rfl | hx
          · exact le_of_lt hlt
          · exact hall x hx
        · intro x hx
          rw [List.take_succ_cons] at hx
          rcases List.mem_cons.mp hx with rfl | hx2
          · exact hlt
          · exact hfirst x hx2
    · have hstep : pickBest (r :: t) (some b) = pickBest t (some b) := by
        rw [hstep0, if_neg hrb]
      have hrb2 : r.score ≤ b.score := not_lt.mp hrb
      rcases ih b with ⟨he, hall⟩ | ⟨k, hk, he, hlt, hall, hfirst⟩
      · left
        refine ⟨by rw [hstep]; exact he, ?_⟩
        intro x hx
        rcases List.mem_cons.mp hx with rfl | hx
        · exact hrb2
        · exact hall x hx
      · right
        refine ⟨k + 1, Nat.succ_lt_succ hk, ?_, hlt, ?_, ?_⟩
        · rw [hstep]
          exact he
        · intro x hx
          rcases List.mem_cons.mp hx with rfl | hx
          · exact le_trans hrb2 (le_of_lt hlt)
          · exact hall x hx
        · intro x hx
          rw [List.take_succ_cons] at hx
          rcases List.mem_cons.mp hx with rfl | hx2
          · exact lt_of_le_of_lt hrb2 hlt
          · exact hfirst x hx2

theorem pickBest_isSome (t : List SchedulingResult) (b : SchedulingResult) :
    ∃ r, pickBest t (some b) = some r := by
  rcases pickBest_acc_spec t b with ⟨he, _⟩ | ⟨k, hk, he, _, _, _⟩
  · exact ⟨b, he⟩
  · exact ⟨_, he⟩

theorem pickBest_none_spec (l : List SchedulingResult) :
    (pickBest l none = none ↔ l = []) ∧
    ∀ r, pickBest l none = some r →
      ∃ k, ∃ hk : k < l.length,
        r = l.get ⟨k, hk⟩ ∧
        (∀ x ∈ l, x.score ≤ r.score) ∧
        (∀ x ∈ l.take k, x.score < r.score) := by
  cases l with
  | nil =>
    constructor
    · simp [pickBest]
    · intro r h
      cases h
  | cons r0 t =>
    have hstep : pickBest (r0 :: t) none = pickBest t (some r0) := rfl
    constructor
    · constructor
      · intro h
        obtain ⟨r, hr⟩ := pickBest_isSome t r0
        rw [hstep, hr] at h
        cases h
      · intro h
        cases h
    · intro r h
      rw [hstep] at h
      rcases pickBest_acc_spec t r0 with ⟨he, hall⟩ | ⟨k, hk, he, hlt, hall, hfirst⟩
      · rw [he] at h
        injection h with h
        refine ⟨0, by simp, h.symm, ?_, by simp⟩
        intro x hx
        rcases List.mem_cons.mp hx with rfl | hx
        · rw [← h]
        · rw [← h]
          exact hall x hx
      · rw [he] at h
        injection h with h
        refine ⟨k + 1, Nat.succ_lt_succ hk, h.symm, ?_, ?_⟩
        · intro x hx
          rw [← h]
          rcases List.mem_cons.mp hx with rfl | hx
          · exact le_of_lt hlt
          · exact hall x hx
        · intro x hx
          rw [← h]
          rw [List.take_succ_cons] at hx
          rcases List.mem_cons.mp hx with rfl | hx2
          · exact hlt
          · exact hfirst x hx2

/-- C3 (amended): the single-GPU path returns exactly the first-seen
maximum of `singleResults` — the scored candidates (one per accelerator
with `memory_free ≥ 1000`, i.e. at least the threshold, not strictly
above it) of all nodes with `free_gpus ≥ requested`, in (node-iteration,
then stored accelerator) order: it is `none` iff there are no candidates,
and otherwise returns candidate `k` such that every candidate scores
`≤` it and every earlier candidate scores strictly less. -/
theorem claim3_argmax_first (gpu_state : Cache) (gpu_req : Int) (pod : Pod) :
    (find_single_gpu_placement gpu_state gpu_req pod = none ↔
      singleResults gpu_state gpu_req pod = []) ∧
    ∀ r, find_single_gpu_placement gpu_state gpu_req pod = some r →
      ∃ k, ∃ hk : k < (singleResults gpu_state gpu_req pod).length,
        r = (singleResults gpu_state gpu_req pod).get ⟨k, hk⟩ ∧
        (∀ x ∈ singleResults gpu_state gpu_req pod, x.score ≤ r.score) ∧
        (∀ x ∈ (singleResults gpu_state gpu_req pod).take k, x.score < r.score) := by
  have heq : find_single_gpu_placement gpu_state gpu_req pod =
      pickBest (singleResults gpu_state gpu_req pod) none :=
    find_single_go_eq gpu_req pod gpu_state none
  rw [heq]
  exact pickBest_none_spec _

theorem claim3_argmax_first_witness :
    ∃ k, ∃ hk : k < (singleResults exCache1 1 exPod).length,
      exR1 = (singleResults exCache1 1 exPod).get ⟨k, hk⟩ ∧
      (∀ x ∈ singleResults exCache1 1 exPod, x.score ≤ exR1.score) ∧
      (∀ x ∈ (singleResults exCache1 1 exPod).take k, x.score < exR1.score) :=
  (claim3_argmax_first exCache1 1 exPod).2 exR1 rfl

/-- C3 counterexample: the scan of `find_single_gpu_placement` admits
GPUs with `memory_free ≥ 1000` (at least the threshold), while the claim
restricts the argmax domain to free capacity strictly above the
threshold.  On `exSt3c` the code selects GPU index 1, whose
`memory_free` is exactly 1000 — yet the only accelerator with free
capacity above the threshold is index 0. -/
theorem claim3_counterexample :
    find_single_gpu_placement exSt3c 1 exPod =
      some (mkSingleResult "n1" exN3c exPod exG3b) ∧
    (mkSingleResult "n1" exN3c exPod exG3b).gpus = [1] ∧
    (free_gpus_of exN3c).map (fun g => g.gpu_index) = [0] := by
  refine ⟨?_, rfl, rfl⟩
  have hgt : score_single_gpu exG3b exN3c exPod > score_single_gpu exG3a exN3c exPod := by
    norm_num [score_single_gpu, exG3a, exG3b, exN3c,
      show strContains "H100" "H100" = true from rfl]
  have h1 : find_single_gpu_placement exSt3c 1 exPod =
      scanGpus "n1" exN3c exPod [exG3a, exG3b] none := rfl
  have h2 : scanGpus "n1" exN3c exPod [exG3a, exG3b] none =
      scanGpus "n1" exN3c exPod [exG3b]
        (some (mkSingleResult "n1" exN3c exPod exG3a)) := rfl
  have h3 : scanGpus "n1" exN3c exPod [exG3b]
        (some (mkSingleResult "n1" exN3c exPod exG3a)) =
      (if score_single_gpu exG3b exN3c exPod > score_single_gpu exG3a exN3c exPod
        then some (mkSingleResult "n1" exN3c exPod exG3b)
        else some (mkSingleResult "n1" exN3c exPod exG3a)) := rfl
  rw [h1, h2, h3, if_pos hgt]

/-! Claims C2 and C8: multi-GPU selection on a node. -/

theorem window_zero (l : List GPUInfo) (k : Nat) : window l 0 k = l.take k := by
  simp [window]

theorem window_succ (g : GPUInfo) (t : List GPUInfo) (i k : Nat) :
    window (g :: t) (i + 1) k = window t i k := by
  simp [window]

theorem findRunNat_none_iff (k : Nat) (hk : 0 < k) :
    ∀ l : List GPUInfo,
      (findRunNat k l = none ↔
        ∀ i, i + k ≤ l.length → isContig (window l i k) = false) := by
  intro l
  induction l with
  | nil =>
    have hk0 : ¬ (k = 0) := by omega
    constructor
    · intro _ i hi
      simp only [List.length_nil] at hi
      exact absurd hi (by omega)
    · intro _
      simp [findRunNat, hk0]
  | cons g t ih =>
    by_cases hlen : k ≤ (g :: t).length
    · by_cases hcont : isContig ((g :: t).take k) = true
      · have hstep : findRunNat k (g :: t) = some ((g :: t).take k) := by
          simp only [findRunNat]
          rw [if_pos hlen, if_pos hcont]
        constructor
        · intro h
          rw [hstep] at h
          cases h
        · intro h
          exfalso
          have h0 := h 0 (by simpa using hlen)
          rw [window_zero] at h0
          rw [hcont] at h0
          cases h0
      · have hcf : isContig ((g :: t).take k) = false := by
          cases hcb : isContig ((g :: t).take k)
          · rfl
          · exact absurd hcb hcont
        have hstep : findRunNat k (g :: t) = findRunNat k t := by
          simp only [findRunNat]
          rw [if_pos hlen, if_neg (by simp [hcf])]
        rw [hstep, ih]
        constructor
        · intro h i hi
          cases i with
          | zero =>
            rw [window_zero]
            exact hcf
          | succ j =>
            rw [window_succ]
            refine h j ?_
            simp only [List.length_cons] at hi
            omega
        · intro h i hi
          have h2 := h (i + 1) (by simp only [List.length_cons]; omega)
          rwa [window_succ] at h2
    · have hstep : findRunNat k (g :: t) = none := by
        simp only [findRunNat]
        rw [if_neg hlen]
      rw [hstep]
      constructor
      · intro _ i hi
        exact absurd hi (by simp only [List.length_cons] at hlen ⊢; omega)
      · intro _
        rfl

theorem findRunNat_some (k : Nat) (hk : 0 < k) :
    ∀ (l w : List GPUInfo),
      findRunNat k l = some w →
      ∃ i, i + k ≤ l.length ∧ isContig (window l i k) = true ∧
        w = window l i k ∧
        ∀ j, j < i → isContig (window l j k) = false := by
  intro l
  induction l with
  | nil =>
    intro w h
    have hk0 : ¬ (k = 0) := by omega
    simp [findRunNat, hk0] at h
  | cons g t ih =>
    intro w h
    by_cases hlen : k ≤ (g :: t).length
    · by_cases hcont : isContig ((g :: t).take k) = true
      · have hstep : findRunNat k (g :: t) = some ((g :: t).take k) := by
          simp only [findRunNat]
          rw [if_pos hlen, if_pos hcont]
        rw [hstep] at h
        injection h with h
        refine ⟨0, by simpa using hlen, ?_, ?_, ?_⟩
        · rw [window_zero]
          exact hcont
        · rw [window_zero]
          exact h.symm
        · intro j hj
          exact absurd hj (Nat.not_lt_zero j)
      · have hcf : isContig ((g :: t).take k) = false := by
          cases hcb : isContig ((g :: t).take k)
          · rfl
          · exact absurd hcb hcont
        have hstep : findRunNat k (g :: t) = findRunNat k t := by
          simp only [findRunNat]
          rw [if_pos hlen, if_neg (by simp [hcf])]
        rw [hstep] at h
        obtain ⟨i, hi, hc, hw, hmin⟩ := ih w h
        refine ⟨i + 1, ?_, ?_, ?_, ?_⟩
        · simp only [List.length_cons]
          omega
        · rw [window_succ]
          exact hc
        · rw [window_succ]
          exact hw
        · intro j hj
          cases j with
          | zero =>
            rw [window_zero]
            exact hcf
          | succ j2 =>
            rw [window_succ]
            exact hmin j2 (by omega)
    · have hstep : findRunNat k (g :: t) = none := by
        simp only [findRunNat]
        rw [if_neg hlen]
      rw [hstep] at h
      cases h

theorem mem_insertByIndex {x g : GPUInfo} :
    ∀ {l : List GPUInfo}, x ∈ insertByIndex g l → x = g ∨ x ∈ l := by
  intro l
  induction l with
  | nil =>
    intro hm
    simp [insertByIndex] at hm
    exact Or.inl hm
  | cons a t ih =>
    intro hm
    by_cases hle : a.gpu_index ≤ g.gpu_index
    · simp only [insertByIndex] at hm
      rw [if_pos hle] at hm
      rcases List.mem_cons.mp hm with rfl | hm2
      · exact Or.inr (List.mem_cons_self _ _)
      · rcases ih hm2 with h1 | h1
        · exact Or.inl h1
        · exact Or.inr (List.mem_cons_of_mem _ h1)
    · simp only [insertByIndex] at hm
      rw [if_neg hle] at hm
      rcases List.mem_cons.mp hm with rfl | hm2
      · exact Or.inl rfl
      · exact Or.inr hm2

theorem insertByIndex_pairwise {g : GPUInfo} :
    ∀ {l : List GPUInfo},
      l.Pairwise (fun a b => a.gpu_index ≤ b.gpu_index) →
      (insertByIndex g l).Pairwise (fun a b => a.gpu_index ≤ b.gpu_index) := by
  intro l
  induction l with
  | nil =>
    intro _
    simp [insertByIndex]
  | cons a t ih =>
    intro hp
    rw [List.pairwise_cons] at hp
    obtain ⟨ha, ht⟩ := hp
    by_cases hle : a.gpu_index ≤ g.gpu_index
    · simp only [insertByIndex]
      rw [if_pos hle, List.pairwise_cons]
      constructor
      · intro x hx
        rcases mem_insertByIndex hx with rfl | hx2
        · exact hle
        · exact ha x hx2
      · exact ih ht
    · simp only [insertByIndex]
      rw [if_neg hle, List.pairwise_cons]
      constructor
      · intro x hx
        rcases List.mem_cons.mp hx with rfl | hx2
        · omega
        · have := ha x hx2
          omega
      · exact List.pairwise_cons.mpr ⟨ha, ht⟩

theorem sortByIndex_pairwise :
    ∀ l : List GPUInfo,
      (sortByIndex l).Pairwise (fun a b => a.gpu_index ≤ b.gpu_index) := by
  intro l
  induction l with
  | nil => simp [sortByIndex]
  | cons g t ih => exact insertByIndex_pairwise ih

/-- C2: on an interconnect-enabled node with group size > 1 and enough
free accelerators, either some window of the index-sorted free list is
contiguous — and then the selection is exactly the *first* such window
(every earlier window is not contiguous) with the node score being the
1.5-multiplied sum of the selected accelerators' individual scores — or
no window is contiguous and the selection falls back to the first
`group_size` free accelerators with the plain (un-bonused) sum. -/
theorem claim2_interconnect_selection (state : NodeGPUState) (count : Int)
    (pod : Pod) (hnv : state.nvlink_enabled = true) (hc : 1 < count)
    (hlen : count ≤ ((free_gpus_of state).length : Int)) :
    ((∃ i, contigWindow (sortByIndex (free_gpus_of state)) i count.toNat ∧
        (∀ j, j < i →
          ¬ contigWindow (sortByIndex (free_gpus_of state)) j count.toNat) ∧
        select_gpu_set state count pod =
          (some ((window (sortByIndex (free_gpus_of state)) i count.toNat).map
              (fun g => g.gpu_index)),
            sumScores (window (sortByIndex (free_gpus_of state)) i count.toNat)
              state pod * (3 / 2))) ∨
      ((∀ i, ¬ contigWindow (sortByIndex (free_gpus_of state)) i count.toNat) ∧
        select_gpu_set state count pod =
          (some (((free_gpus_of state).take count.toNat).map
              (fun g => g.gpu_index)),
            sumScores ((free_gpus_of state).take count.toNat) state pod))) ∧
    (sortByIndex (free_gpus_of state)).Pairwise
      (fun a b => a.gpu_index ≤ b.gpu_index) := by
  have hk : 0 < count.toNat := by omega
  have hnotlt : ¬ (((free_gpus_of state).length : Int) < count) := not_lt.mpr hlen
  have hcond : ¬ (state.nvlink_enabled = false ∨ count = 1) := by
    simp [hnv]
    omega
  refine ⟨?_, sortByIndex_pairwise _⟩
  have hsel : select_gpu_set state count pod =
      match find_contiguous_gpus (free_gpus_of state) count with
      | some selected =>
        (some (selected.map (fun g => g.gpu_index)),
          sumScores selected state pod * (3 / 2))
      | none =>
        (some (((free_gpus_of state).take count.toNat).map (fun g => g.gpu_index)),
          sumScores ((free_gpus_of state).take count.toNat) state pod) := by
    simp only [select_gpu_set]
    rw [if_neg hnotlt, if_neg hcond]
  cases hrun : findRunNat count.toNat (sortByIndex (free_gpus_of state)) with
  | some w =>
    left
    obtain ⟨i, hi, hcontig, hw, hmin⟩ :=
      findRunNat_some count.toNat hk _ w hrun
    refine ⟨i, ⟨hi, hcontig⟩, ?_, ?_⟩
    · intro j hj hcw
      have := hmin j hj
      rw [hcw.2] at this
      cases this
    · rw [hsel]
      unfold find_contiguous_gpus
      rw [hrun]
      subst hw
      rfl
  | none =>
    right
    have hnone := (findRunNat_none_iff count.toNat hk _).mp hrun
    refine ⟨?_, ?_⟩
    · intro i hcw
      have := hnone i hcw.1
      rw [hcw.2] at this
      cases this
    · rw [hsel]
      unfold find_contiguous_gpus
      rw [hrun]

theorem claim2_interconnect_selection_witness :
    ((∃ i, contigWindow (sortByIndex (free_gpus_of exNvState)) i (2 : Int).toNat ∧
        (∀ j, j < i →
          ¬ contigWindow (sortByIndex (free_gpus_of exNvState)) j (2 : Int).toNat) ∧
        select_gpu_set exNvState 2 exPod =
          (some ((window (sortByIndex (free_gpus_of exNvState)) i (2 : Int).toNat).map
              (fun g => g.gpu_index)),
            sumScores (window (sortByIndex (free_gpus_of exNvState)) i (2 : Int).toNat)
              exNvState exPod * (3 / 2))) ∨
      ((∀ i, ¬ contigWindow (sortByIndex (free_gpus_of exNvState)) i (2 : Int).toNat) ∧
        select_gpu_set exNvState 2 exPod =
          (some (((free_gpus_of exNvState).take (2 : Int).toNat).map
              (fun g => g.gpu_index)),
            sumScores ((free_gpus_of exNvState).take (2 : Int).toNat) exNvState exPod))) ∧
    (sortByIndex (free_gpus_of exNvState)).Pairwise
      (fun a b => a.gpu_index ≤ b.gpu_index) :=
  claim2_interconnect_selection exNvState 2 exPod rfl (by decide) (by decide)

/-- C8: with no interconnect capability (or group size 1) and enough free
accelerators, the selection is the first `group_size` free accelerators
and the score is the plain sum of their individual scores; under the
snapshot invariant that the stored GPU list is in ascending index order
(which every snapshot the refresh builds satisfies), the selected indices
are ascending.  The hypothesis `0 ≤ count` scopes the statement to real
group sizes (Python's negative-slice semantics is not modelled). -/
theorem claim8_no_interconnect (state : NodeGPUState) (count : Int) (pod : Pod)
    (_hpos : 0 ≤ count)
    (hbr : state.nvlink_enabled = false ∨ count = 1)
    (hlen : count ≤ ((free_gpus_of state).length : Int))
    (hsorted : state.gpus.Pairwise (fun a b => a.gpu_index ≤ b.gpu_index)) :
    select_gpu_set state count pod =
      (some (((free_gpus_of state).take count.toNat).map (fun g => g.gpu_index)),
        sumScores ((free_gpus_of state).take count.toNat) state pod) ∧
    (((free_gpus_of state).take count.toNat).map (fun g => g.gpu_index)).Pairwise
      (fun a b => a ≤ b) := by
  have hnotlt : ¬ (((free_gpus_of state).length : Int) < count) := not_lt.mpr hlen
  constructor
  · simp only [select_gpu_set]
    rw [if_neg hnotlt, if_pos hbr]
  · have h1 : (free_gpus_of state).Pairwise
        (fun a b => a.gpu_index ≤ b.gpu_index) := hsorted.filter _
    have h2 : ((free_gpus_of state).take count.toNat).Pairwise
        (fun a b => a.gpu_index ≤ b.gpu_index) :=
      List.Pairwise.sublist (List.take_sublist _ _) h1
    rw [List.pairwise_map]
    exact h2

theorem claim8_no_interconnect_witness :
    (select_gpu_set exN2 2 exPod =
      (some (((free_gpus_of exN2).take (2 : Int).toNat).map (fun g => g.gpu_index)),
        sumScores ((free_gpus_of exN2).take (2 : Int).toNat) exN2 exPod)) ∧
    ((((free_gpus_of exN2).take (2 : Int).toNat).map (fun g => g.gpu_index)).Pairwise
      (fun a b => a ≤ b)) :=
  claim8_no_interconnect exN2 2 exPod (by decide) (Or.inl rfl) (by decide)
    (by decide)

end GPUSched
